import Mathlib

/-!
Verification of the container-orchestration core of the `cube` repository
(package `task`): the task lifecycle state machine and the Docker container
lifecycle driver (`ImagePull`, `ContainerCreate`, `ContainerStart`,
`ContainerLogs`, `Run`).

The Go source is shallowly embedded:
* the Docker daemon (the `client.Client` field) becomes an injectable
  `Runtime` record of pure functions, one per remote call the driver makes;
* a Go `context.Context` becomes a `Context` record carrying its cancellation
  flag; `context.Background()` is the never-cancelled context;
* Go errors become the inductive `GoError`; `fmt.Errorf("msg: %w", err)`
  becomes `GoError.wrapped "msg" err`;
* methods on `*Docker` become state transformers `Docker → ... → Docker × α`,
  returning the receiver state the method leaves behind;
* `float64` values are modelled as exact rationals (every concrete value the
  development evaluates at is exactly representable in binary floating point,
  and the multiplications involved are exact there); Go's float-to-int64
  conversion truncates toward zero;
* output sinks (`d.Writer`, `d.StdErr`) are the fallible write functions the
  driver forwards stream content to; log lines emitted through `d.Logger`
  carry no data back into the driver and are not modelled.
-/

namespace Cube

/-- Lifecycle stage of a task (`type State int`, values `iota` = 0..4). -/
inductive State where
  | Pending
  | Scheduled
  | Running
  | Completed
  | Failed
deriving DecidableEq, Repr, Fintype

/-- The integer value of a `State` constant in the source (`iota` order). -/
def stateOrd : State → Nat
  | .Pending => 0
  | .Scheduled => 1
  | .Running => 2
  | .Completed => 3
  | .Failed => 4

/-- A Go error value: either a leaf error carrying its message, the
distinguished `context.Canceled` error, or `fmt.Errorf("msg: %w", cause)`. -/
inductive GoError where
  | raw (msg : String)
  | canceled
  | wrapped (msg : String) (cause : GoError)
deriving DecidableEq, Repr

/-- A Go `context.Context`, reduced to the one observable the driver's
collaborators react to: whether the context has been cancelled. -/
structure Context where
  cancelled : Bool
deriving DecidableEq, Repr

/-- `context.Background()`: a context that is never cancelled. -/
def Context.background : Context := { cancelled := false }

/-- One entry of a `nat.PortBinding` list. -/
structure PortBinding where
  hostIP : String
  hostPort : String
deriving DecidableEq, Repr

/-- `task.Task`: a workload description and its lifecycle snapshot.
`uuid.UUID` is modelled as a string, `time.Time` as an integer instant. -/
structure Task where
  id : String
  name : String
  state : State
  image : String
  memory : Int
  disk : Int
  exposedPorts : List (String × List PortBinding)
  portBindings : List (String × String)
  restartPolicy : String
  startTime : Int
  finishTime : Int
deriving DecidableEq, Repr

/-- `task.TaskEvent`: an immutable record of one state transition. -/
structure TaskEvent where
  id : String
  state : State
  timestamp : Int
  task : Task
deriving DecidableEq, Repr

/-- `task.Config`: the runtime-facing resource/request translation of a task.
`ExposedPorts` (`nat.PortSet`) is the list of exposed port keys; `Cpu` is the
`float64` CPU share, modelled as an exact rational. -/
structure Config where
  name : String
  attachStdin : Bool
  attachStdout : Bool
  attachStderr : Bool
  exposedPorts : List String
  cmd : List String
  image : String
  cpu : ℚ
  memory : Int
  disk : Int
  env : List String
  restartPolicy : String

/-- `container.Config`: the runtime-native container specification built by
`buildContainerConfig`. -/
structure ContainerConfig where
  image : String
  tty : Bool
  env : List String
  exposedPorts : List String
deriving DecidableEq, Repr

/-- `container.RestartPolicy`. -/
structure RestartPolicy where
  name : String
deriving DecidableEq, Repr

/-- `container.Resources`: the resource limits handed to container creation. -/
structure Resources where
  memory : Int
  nanoCPUs : Int
deriving DecidableEq, Repr

/-- `container.HostConfig`: host-side container settings built by
`buildHostConfig`. `portBindings` is the `PortBindings` field of the Docker
API host configuration; the source never assigns it, so it keeps its zero
value. -/
structure HostConfig where
  restartPolicy : RestartPolicy
  resources : Resources
  publishAllPorts : Bool
  portBindings : List (String × String)
deriving DecidableEq, Repr

/-- `container.LogsOptions`. -/
structure LogsOptions where
  showStdout : Bool
  showStderr : Bool
deriving DecidableEq, Repr

/-- One frame of a multiplexed container log stream: the flag says whether
the frame belongs to stderr, the payload is the frame content. -/
structure LogFrame where
  isStderr : Bool
  payload : String
deriving DecidableEq, Repr

/-- The container-runtime capability the driver consumes (the remote calls
made through `d.Client`), injectable so the driver can be exercised against
stub runtimes. `imagePull` returns the pull progress stream content,
`containerCreate` returns the new container's id, `containerLogs` returns the
multiplexed log stream. -/
structure Runtime where
  imagePull : Context → String → Except GoError (List String)
  containerCreate :
    Context → ContainerConfig → HostConfig → String → Except GoError String
  containerStart : Context → String → Except GoError Unit
  containerLogs : Context → String → LogsOptions → Except GoError (List LogFrame)

/-- An output sink (`io.Writer`): consuming content either succeeds or
reports a write error. -/
def Sink : Type := List String → Option GoError

/-- `task.Docker`: the container lifecycle driver. `client` is the Docker
daemon capability, `writer` and `stdErr` the injected output sinks. -/
structure Docker where
  client : Runtime
  config : Config
  containerID : String
  writer : Sink
  stdErr : Sink

/-- `task.DockerResult`: the outcome record of a driver run. Field defaults
are the Go zero values, so a Go composite literal that sets only some fields
is transcribed verbatim. -/
structure DockerResult where
  Error : Option GoError := none
  Action : String := ""
  ContainerID : String := ""
  Result : String := ""
deriving DecidableEq, Repr

/-- Go conversion of a `float64` to `int64`: truncation toward zero (the
rational model of the float is exact, so the conversion is the exact
truncation). -/
def float64ToInt64 (q : ℚ) : Int :=
  if 0 ≤ q then ⌊q⌋ else ⌈q⌉

/-- `stdcopy.StdCopy(d.Writer, d.StdErr, logs)`: demultiplex the combined
stream, forwarding stdout frames to the first sink and stderr frames to the
second; the first write error is returned. -/
def stdCopy (out errSink : Sink) (frames : List LogFrame) : Option GoError :=
  match out ((frames.filter (fun f => !f.isStderr)).map LogFrame.payload) with
  | some e => some e
  | none => errSink ((frames.filter (fun f => f.isStderr)).map LogFrame.payload)

/-- `(d *Docker) ImagePull(ctx)`: pull `d.Config.Image`; on pull failure
return `fmt.Errorf("image pull failed: %w", err)`; otherwise copy the pull
stream to `d.Writer` and return the copy's error result. -/
def Docker.imagePull (d : Docker) (ctx : Context) : Docker × Option GoError :=
  (d,
    match d.client.imagePull ctx d.config.image with
    | .error e => some (GoError.wrapped "image pull failed" e)
    | .ok content => d.writer content)

/-- `(d *Docker) buildContainerConfig()`. -/
def Docker.buildContainerConfig (d : Docker) : ContainerConfig :=
  { image := d.config.image
    tty := false
    env := d.config.env
    exposedPorts := d.config.exposedPorts }

/-- `(d *Docker) buildHostConfig()`: restart policy from the config,
`Memory` passed through unchanged, `NanoCPUs := int64(Cpu * math.Pow(10, 9))`
(`math.Pow(10, 9)` is exactly `10^9`), `PublishAllPorts: true`; the
`PortBindings` field is not assigned and stays at its zero value. -/
def Docker.buildHostConfig (d : Docker) : HostConfig :=
  { restartPolicy := { name := d.config.restartPolicy }
    resources :=
      { memory := d.config.memory
        nanoCPUs := float64ToInt64 (d.config.cpu * 10 ^ 9) }
    publishAllPorts := true
    portBindings := [] }

/-- `(d *Docker) ContainerCreate(ctx)`: build the container and host
specifications and create the container under `d.Config.Name`; failures are
wrapped as `fmt.Errorf("create container failed: %w", err)`. -/
def Docker.containerCreate (d : Docker) (ctx : Context) :
    Docker × Except GoError String :=
  (d,
    match d.client.containerCreate ctx d.buildContainerConfig d.buildHostConfig
        d.config.name with
    | .error e => .error (GoError.wrapped "create container failed" e)
    | .ok resp => .ok resp)

/-- `(d *Docker) ContainerStart(ctx, containerID)`: start the container; on
failure return `fmt.Errorf("start container failed: %w", err)` with the
receiver unchanged; on success record `containerID` in `d.ContainerID`. -/
def Docker.containerStart (d : Docker) (ctx : Context) (containerID : String) :
    Docker × Option GoError :=
  match d.client.containerStart ctx containerID with
  | .error e => (d, some (GoError.wrapped "start container failed" e))
  | .ok _ => ({ d with containerID := containerID }, none)

/-- `(d *Docker) ContainerLogs(ctx, containerID)`: attach to the combined
stdout/stderr stream and demultiplex it into `d.Writer` and `d.StdErr`;
attach failures are wrapped as
`fmt.Errorf("failed to get container logs: %w", err)`. -/
def Docker.containerLogs (d : Docker) (ctx : Context) (containerID : String) :
    Docker × Option GoError :=
  (d,
    match d.client.containerLogs ctx containerID
        { showStdout := true, showStderr := true } with
    | .error e => some (GoError.wrapped "failed to get container logs" e)
    | .ok logs => stdCopy d.writer d.stdErr logs)

/-- `(d *Docker) Run()`: `ctx := context.Background()`, then image pull,
container create, container start, short-circuiting with the wrapped error of
the first failing stage; on full success return
`{Action: "start", ContainerID: containerID, Result: "success"}`. -/
def Docker.run (d : Docker) : Docker × DockerResult :=
  match d.imagePull Context.background with
  | (d1, some e) =>
    (d1, { Error := some (GoError.wrapped "failed to pull image" e) })
  | (d1, none) =>
    match d1.containerCreate Context.background with
    | (d2, .error e) =>
      (d2, { Error := some (GoError.wrapped "failed to create container" e) })
    | (d2, .ok containerID) =>
      match d2.containerStart Context.background containerID with
      | (d3, some e) =>
        (d3, { Error := some (GoError.wrapped "failed to start container" e) })
      | (d3, none) =>
        (d3, { Error := none, Action := "start", ContainerID := containerID,
               Result := "success" })

/-- Modelled from the spec: the source declares the `State` enum but contains
no transition-validity function; §4.1 of the specification defines one. A
transition is accepted exactly when it moves forward in the ordinal order
`Pending(0) < Scheduled(1) < Running(2) < { Completed(3), Failed(4) }`
(the two terminal states are alternatives, not ordered between each other),
or moves to `Failed` from a non-terminal state; every backward or invalid
transition is rejected. -/
def validStateTransition (s t : State) : Bool :=
  match t with
  | .Failed => decide (s ≠ .Completed ∧ s ≠ .Failed)
  | _ => decide (stateOrd s < stateOrd t)

/-- Modelled from the spec: §4.2's public contract is
`Run(cancellableContext) → Result`, the three stages executed in order with
the caller's context passed to each stage. Identical to `Docker.run` except
that the context is supplied by the caller instead of being created
internally. -/
def Docker.runSpec (d : Docker) (ctx : Context) : Docker × DockerResult :=
  match d.imagePull ctx with
  | (d1, some e) =>
    (d1, { Error := some (GoError.wrapped "failed to pull image" e) })
  | (d1, none) =>
    match d1.containerCreate ctx with
    | (d2, .error e) =>
      (d2, { Error := some (GoError.wrapped "failed to create container" e) })
    | (d2, .ok containerID) =>
      match d2.containerStart ctx containerID with
      | (d3, some e) =>
        (d3, { Error := some (GoError.wrapped "failed to start container" e) })
      | (d3, none) =>
        (d3, { Error := none, Action := "start", ContainerID := containerID,
               Result := "success" })

/-- Replace the create and start calls of a driver's runtime capability,
leaving everything else in place (used to show a run that fails earlier
never consults them). -/
def withCreateStart (d : Docker)
    (c : Context → ContainerConfig → HostConfig → String → Except GoError String)
    (s : Context → String → Except GoError Unit) : Docker :=
  { d with client := { d.client with containerCreate := c, containerStart := s } }

/-- Replace only the start call of a driver's runtime capability. -/
def withStart (d : Docker) (s : Context → String → Except GoError Unit) :
    Docker :=
  { d with client := { d.client with containerStart := s } }

/-- A sink that accepts every write. -/
def okSink : Sink := fun _ => none

/-- A concrete configuration used by the stub drivers below. -/
def cfgNginx : Config :=
  { name := "nginx-server"
    attachStdin := false
    attachStdout := true
    attachStderr := true
    exposedPorts := ["80/tcp"]
    cmd := []
    image := "nginx:latest"
    cpu := 1
    memory := 1073741824
    disk := 1073741824
    env := []
    restartPolicy := "always" }

/-- A stub runtime that succeeds at every stage and creates container
`"abc123"`. -/
def rtHappy : Runtime :=
  { imagePull := fun _ _ => .ok ["pull-progress"]
    containerCreate := fun _ _ _ _ => .ok "abc123"
    containerStart := fun _ _ => .ok ()
    containerLogs := fun _ _ _ => .ok [] }

/-- A driver over the all-success stub runtime. -/
def dHappy : Docker :=
  { client := rtHappy
    config := cfgNginx
    containerID := ""
    writer := okSink
    stdErr := okSink }

/-- A stub runtime whose creation succeeds with id `"xyz"` and whose start
fails with a transport error. -/
def rtStartFails : Runtime :=
  { imagePull := fun _ _ => .ok ["pull-progress"]
    containerCreate := fun _ _ _ _ => .ok "xyz"
    containerStart := fun _ _ => .error (GoError.raw "transport error")
    containerLogs := fun _ _ _ => .ok [] }

/-- A driver over the start-failing stub runtime. -/
def dStartFails : Docker :=
  { client := rtStartFails
    config := cfgNginx
    containerID := ""
    writer := okSink
    stdErr := okSink }

/-- A fully cancellation-aware stub runtime: every stage aborts with
`context.Canceled` precisely when the context it receives is cancelled, and
succeeds otherwise (creating container `"c1"`). -/
def rtCancelAware : Runtime :=
  { imagePull := fun ctx _ =>
      if ctx.cancelled then .error GoError.canceled else .ok []
    containerCreate := fun ctx _ _ _ =>
      if ctx.cancelled then .error GoError.canceled else .ok "c1"
    containerStart := fun ctx _ =>
      if ctx.cancelled then .error GoError.canceled else .ok ()
    containerLogs := fun ctx _ _ =>
      if ctx.cancelled then .error GoError.canceled else .ok [] }

/-- A driver over the cancellation-aware stub runtime. -/
def dCancelAware : Docker :=
  { client := rtCancelAware
    config := cfgNginx
    containerID := ""
    writer := okSink
    stdErr := okSink }

/-- A stub runtime whose image pull fails with a registry error. -/
def rtPullFails : Runtime :=
  { imagePull := fun _ _ => .error (GoError.raw "registry unreachable")
    containerCreate := fun _ _ _ _ => .ok "abc123"
    containerStart := fun _ _ => .ok ()
    containerLogs := fun _ _ _ => .ok [] }

/-- A driver over the pull-failing stub runtime. -/
def dPullFails : Docker :=
  { client := rtPullFails
    config := cfgNginx
    containerID := ""
    writer := okSink
    stdErr := okSink }

/-- A concrete task carrying an explicit host-to-container port binding in
its description. -/
def tWeb : Task :=
  { id := "task-1"
    name := "web-server"
    state := State.Pending
    image := "nginx:latest"
    memory := 512
    disk := 1024
    exposedPorts := [("80/tcp", [{ hostIP := "0.0.0.0", hostPort := "8080" }])]
    portBindings := [("80/tcp", "8080")]
    restartPolicy := "always"
    startTime := 0
    finishTime := 0 }

/-! ### Basic lemmas about the driver's stages -/

theorem imagePull_fst (d : Docker) (ctx : Context) :
    (d.imagePull ctx).1 = d := rfl

theorem containerCreate_fst (d : Docker) (ctx : Context) :
    (d.containerCreate ctx).1 = d := rfl

theorem containerLogs_fst (d : Docker) (ctx : Context) (cid : String) :
    (d.containerLogs ctx cid).1 = d := rfl

theorem withCreateStart_imagePull_snd (d : Docker)
    (c : Context → ContainerConfig → HostConfig → String → Except GoError String)
    (s : Context → String → Except GoError Unit) (ctx : Context) :
    ((withCreateStart d c s).imagePull ctx).2 = (d.imagePull ctx).2 := rfl

theorem withStart_imagePull_snd (d : Docker)
    (s : Context → String → Except GoError Unit) (ctx : Context) :
    ((withStart d s).imagePull ctx).2 = (d.imagePull ctx).2 := rfl

theorem withStart_containerCreate_snd (d : Docker)
    (s : Context → String → Except GoError Unit) (ctx : Context) :
    ((withStart d s).containerCreate ctx).2 = (d.containerCreate ctx).2 := rfl

theorem containerStart_of_ok (d : Docker) (ctx : Context) (cid : String)
    (h : d.client.containerStart ctx cid = .ok ()) :
    d.containerStart ctx cid = ({ d with containerID := cid }, none) := by
  unfold Docker.containerStart
  rw [h]

theorem containerStart_of_error (d : Docker) (ctx : Context) (cid : String)
    (e : GoError) (h : d.client.containerStart ctx cid = .error e) :
    d.containerStart ctx cid =
      (d, some (GoError.wrapped "start container failed" e)) := by
  unfold Docker.containerStart
  rw [h]

theorem containerStart_fst_of_snd_none (d : Docker) (ctx : Context)
    (cid : String) (h : (d.containerStart ctx cid).2 = none) :
    (d.containerStart ctx cid).1 = { d with containerID := cid } := by
  unfold Docker.containerStart at *
  cases hc : d.client.containerStart ctx cid with
  | error e => rw [hc] at h; exact absurd h (by simp)
  | ok u => rfl

theorem containerStart_fst_of_snd_some (d : Docker) (ctx : Context)
    (cid : String) (e : GoError) (h : (d.containerStart ctx cid).2 = some e) :
    (d.containerStart ctx cid).1 = d := by
  unfold Docker.containerStart at *
  cases hc : d.client.containerStart ctx cid with
  | error e2 => rfl
  | ok u => rw [hc] at h; exact absurd h (by simp)

/-! ### Case equations for `Docker.run` -/

theorem run_of_pullErr (d : Docker) (e : GoError)
    (h : (d.imagePull Context.background).2 = some e) :
    Docker.run d =
      (d, { Error := some (GoError.wrapped "failed to pull image" e) }) := by
  have h1 : d.imagePull Context.background = (d, some e) :=
    Prod.ext (imagePull_fst d Context.background) h
  unfold Docker.run
  rw [h1]

theorem run_of_createErr (d : Docker) (e : GoError)
    (hp : (d.imagePull Context.background).2 = none)
    (hc : (d.containerCreate Context.background).2 = .error e) :
    Docker.run d =
      (d, { Error := some (GoError.wrapped "failed to create container" e) }) := by
  have h1 : d.imagePull Context.background = (d, none) :=
    Prod.ext (imagePull_fst d Context.background) hp
  have h2 : d.containerCreate Context.background = (d, .error e) :=
    Prod.ext (containerCreate_fst d Context.background) hc
  simp only [Docker.run, h1, h2]

theorem run_of_startErr (d : Docker) (cid : String) (e : GoError)
    (hp : (d.imagePull Context.background).2 = none)
    (hc : (d.containerCreate Context.background).2 = .ok cid)
    (hs : (d.containerStart Context.background cid).2 = some e) :
    Docker.run d =
      (d, { Error := some (GoError.wrapped "failed to start container" e) }) := by
  have h1 : d.imagePull Context.background = (d, none) :=
    Prod.ext (imagePull_fst d Context.background) hp
  have h2 : d.containerCreate Context.background = (d, .ok cid) :=
    Prod.ext (containerCreate_fst d Context.background) hc
  have h3 : d.containerStart Context.background cid = (d, some e) :=
    Prod.ext (containerStart_fst_of_snd_some d Context.background cid e hs) hs
  simp only [Docker.run, h1, h2, h3]

theorem run_of_success (d : Docker) (cid : String)
    (hp : (d.imagePull Context.background).2 = none)
    (hc : (d.containerCreate Context.background).2 = .ok cid)
    (hs : (d.containerStart Context.background cid).2 = none) :
    Docker.run d =
      ({ d with containerID := cid },
       { Error := none, Action := "start", ContainerID := cid,
         Result := "success" }) := by
  have h1 : d.imagePull Context.background = (d, none) :=
    Prod.ext (imagePull_fst d Context.background) hp
  have h2 : d.containerCreate Context.background = (d, .ok cid) :=
    Prod.ext (containerCreate_fst d Context.background) hc
  have h3 : d.containerStart Context.background cid =
      ({ d with containerID := cid }, none) :=
    Prod.ext (containerStart_fst_of_snd_none d Context.background cid hs) hs
  simp only [Docker.run, h1, h2, h3]

/-! ### Claim theorems -/

/-- C1: for every driver, `Run` executes image-pull, container-create,
container-start strictly in that order: it returns the wrapped error of the
first failing stage without consulting the later stages' runtime calls (the
result is the same for arbitrary replacements of those calls), and only when
all three stages succeed does it return a `DockerResult` with no error,
action `"start"`, the container id returned by creation, and result
`"success"`. -/
theorem C1_run_stage_order_and_results (d : Docker) :
    (∀ e, (d.imagePull Context.background).2 = some e →
      ∀ c s, Docker.run (withCreateStart d c s) =
        (withCreateStart d c s,
         { Error := some (GoError.wrapped "failed to pull image" e) })) ∧
    (∀ e, (d.imagePull Context.background).2 = none →
      (d.containerCreate Context.background).2 = Except.error e →
      ∀ s, Docker.run (withStart d s) =
        (withStart d s,
         { Error := some (GoError.wrapped "failed to create container" e) })) ∧
    (∀ cid e, (d.imagePull Context.background).2 = none →
      (d.containerCreate Context.background).2 = Except.ok cid →
      (d.containerStart Context.background cid).2 = some e →
      Docker.run d =
        (d, { Error := some (GoError.wrapped "failed to start container" e) })) ∧
    (∀ cid, (d.imagePull Context.background).2 = none →
      (d.containerCreate Context.background).2 = Except.ok cid →
      (d.containerStart Context.background cid).2 = none →
      Docker.run d =
        ({ d with containerID := cid },
         { Error := none, Action := "start", ContainerID := cid,
           Result := "success" })) := by
  refine ⟨?_, ?_, ?_, ?_⟩
  · intro e he c s
    exact run_of_pullErr (withCreateStart d c s) e
      ((withCreateStart_imagePull_snd d c s Context.background).trans he)
  · intro e hp hc s
    exact run_of_createErr (withStart d s) e
      ((withStart_imagePull_snd d s Context.background).trans hp)
      ((withStart_containerCreate_snd d s Context.background).trans hc)
  · intro cid e hp hc hs
    exact run_of_startErr d cid e hp hc hs
  · intro cid hp hc hs
    exact run_of_success d cid hp hc hs

/-- C1 witness: against the all-success stub runtime that creates container
`"abc123"`, `Run` returns the success result with that container id. -/
theorem C1_witness :
    Docker.run dHappy =
      ({ dHappy with containerID := "abc123" },
       { Error := none, Action := "start", ContainerID := "abc123",
         Result := "success" }) :=
  (C1_run_stage_order_and_results dHappy).2.2.2 "abc123" rfl rfl rfl

/-- C2 counterexample: with a stub runtime whose creation succeeds returning
`"xyz"` and whose start fails with a transport error, `Run` returns a
`DockerResult` whose `ContainerID` is the empty string, not `"xyz"`: the id
of the successfully created container is dropped on a start failure. -/
theorem C2_counterexample :
    (Docker.containerCreate dStartFails Context.background).2 =
        Except.ok "xyz" ∧
    (Docker.run dStartFails).2.Error =
        some (GoError.wrapped "failed to start container"
          (GoError.wrapped "start container failed"
            (GoError.raw "transport error"))) ∧
    (Docker.run dStartFails).2.ContainerID = "" ∧
    (Docker.run dStartFails).2.ContainerID ≠ "xyz" :=
  ⟨rfl, rfl, rfl, by decide⟩

/-- C2 amended: whenever `Run` fails — including the case where container
creation succeeded and container start failed — the returned result's
`ContainerID` is the empty string; the container id appears in the result
only on full success. -/
theorem C2_failed_run_has_empty_containerID (d : Docker) :
    ((Docker.run d).2.Error ≠ none → (Docker.run d).2.ContainerID = "") ∧
    (∀ cid e, (d.imagePull Context.background).2 = none →
      (d.containerCreate Context.background).2 = Except.ok cid →
      (d.containerStart Context.background cid).2 = some e →
      (Docker.run d).2.Error =
          some (GoError.wrapped "failed to start container" e) ∧
        (Docker.run d).2.ContainerID = "") := by
  constructor
  · intro h
    cases hpe : (d.imagePull Context.background).2 with
    | some e => rw [run_of_pullErr d e hpe]
    | none =>
      cases hce : (d.containerCreate Context.background).2 with
      | error e => rw [run_of_createErr d e hpe hce]
      | ok cid =>
        cases hse : (d.containerStart Context.background cid).2 with
        | some e => rw [run_of_startErr d cid e hpe hce hse]
        | none =>
          rw [run_of_success d cid hpe hce hse] at h
          exact absurd rfl h
  · intro cid e hp hc hs
    rw [run_of_startErr d cid e hp hc hs]
    exact ⟨rfl, rfl⟩

/-- C2 witness: the amended statement evaluated on the stub runtime whose
creation returns `"xyz"` and whose start fails. -/
theorem C2_witness :
    (Docker.run dStartFails).2.Error =
        some (GoError.wrapped "failed to start container"
          (GoError.wrapped "start container failed"
            (GoError.raw "transport error"))) ∧
      (Docker.run dStartFails).2.ContainerID = "" :=
  (C2_failed_run_has_empty_containerID dStartFails).2 "xyz"
    (GoError.wrapped "start container failed" (GoError.raw "transport error"))
    rfl rfl rfl

/-- C3: when the runtime's image pull fails, `Run` returns the (doubly)
wrapped pull error, and the container-create and container-start calls of the
runtime are never invoked: the outcome is identical for every possible
behaviour of those two calls. -/
theorem C3_pull_failure_short_circuits (d : Docker) (e : GoError)
    (h : d.client.imagePull Context.background d.config.image =
      Except.error e) :
    ∀ c s, Docker.run (withCreateStart d c s) =
      (withCreateStart d c s,
       { Error := some (GoError.wrapped "failed to pull image"
           (GoError.wrapped "image pull failed" e)) }) := by
  intro c s
  apply run_of_pullErr
  rw [withCreateStart_imagePull_snd d c s Context.background]
  show (Docker.imagePull d Context.background).2 = _
  unfold Docker.imagePull
  rw [h]

/-- C3 witness: against the stub runtime whose pull fails with a registry
error, every choice of create/start behaviour (here: the all-success stub's)
yields the same wrapped pull error. -/
theorem C3_witness :
    Docker.run
        (withCreateStart dPullFails rtHappy.containerCreate
          rtHappy.containerStart) =
      (withCreateStart dPullFails rtHappy.containerCreate
        rtHappy.containerStart,
       { Error := some (GoError.wrapped "failed to pull image"
           (GoError.wrapped "image pull failed"
             (GoError.raw "registry unreachable"))) }) :=
  C3_pull_failure_short_circuits dPullFails (GoError.raw "registry unreachable")
    rfl rtHappy.containerCreate rtHappy.containerStart

/-- C4: the lifecycle transition function (modelled from the spec, the
source defining only the `State` enum) accepts exactly the moves that go
forward in the ordinal order `Pending(0) < Scheduled(1) < Running(2) <
{ Completed(3), Failed(4) }` (the two terminal states being unordered
alternatives) or that go to `Failed` from a non-terminal state, and it
rejects every backward or stationary transition, in particular
`Completed → Running`. -/
theorem C4_transition_characterization :
    (∀ s t : State, validStateTransition s t = true ↔
      ((stateOrd s < stateOrd t ∧ ¬(s = State.Completed ∧ t = State.Failed)) ∨
       (t = State.Failed ∧ s ≠ State.Completed ∧ s ≠ State.Failed))) ∧
    (∀ s t : State, stateOrd t ≤ stateOrd s →
      validStateTransition s t = false) ∧
    validStateTransition State.Completed State.Running = false := by
  refine ⟨by decide, by decide, rfl⟩

/-- C4 witness: the backward transition `Completed → Scheduled` is ordinal
regression and is rejected. -/
theorem C4_witness :
    stateOrd State.Scheduled ≤ stateOrd State.Completed ∧
    validStateTransition State.Completed State.Scheduled = false :=
  ⟨by decide,
   C4_transition_characterization.2.1 State.Completed State.Scheduled
     (by decide)⟩

/-- C5 counterexample: against a runtime whose every stage aborts with
`context.Canceled` precisely when its context is cancelled, `Run` always
succeeds: the context it hands to every stage is the internally created
`context.Background()`, which is never cancelled, so no caller-held context
exists whose cancellation can abort an in-flight stage of `Run`. -/
theorem C5_counterexample :
    (Docker.run dCancelAware).2 =
        { Error := none, Action := "start", ContainerID := "c1",
          Result := "success" } ∧
    dCancelAware.client.imagePull { cancelled := true }
        dCancelAware.config.image = Except.error GoError.canceled ∧
    dCancelAware.client.containerStart { cancelled := true } "c1" =
        Except.error GoError.canceled ∧
    Context.background.cancelled = false :=
  ⟨rfl, rfl, rfl, rfl⟩

/-- C5 amended: `Run` takes no context from its caller; it creates
`context.Background()` internally and passes that same never-cancelled
context to every stage (it coincides with the spec's context-passing run
applied to the background context), so a caller cannot cancel a `Run` in
flight; only the individual stage methods accept a caller context. -/
theorem C5_run_uses_background_context (d : Docker) :
    Docker.run d = Docker.runSpec d Context.background ∧
    Context.background.cancelled = false :=
  ⟨rfl, rfl⟩

/-- C6: the host configuration's CPU quota is `int64(Cpu * math.Pow(10, 9))`:
the fractional CPU share multiplied by `10^9` and truncated to an integer;
`Cpu = 1.0` yields `1000000000` and `Cpu = 0.5` yields `500000000`. -/
theorem C6_cpu_nano_conversion (d : Docker) :
    (Docker.buildHostConfig d).resources.nanoCPUs =
        float64ToInt64 (d.config.cpu * 10 ^ 9) ∧
    (d.config.cpu = 1 →
      (Docker.buildHostConfig d).resources.nanoCPUs = 1000000000) ∧
    (d.config.cpu = 1 / 2 →
      (Docker.buildHostConfig d).resources.nanoCPUs = 500000000) := by
  refine ⟨rfl, ?_, ?_⟩ <;> intro h <;>
    simp [Docker.buildHostConfig, float64ToInt64, h] <;> norm_num

/-- C6 witness: the stub driver's configuration has `Cpu = 1.0`, and its
built host configuration carries `NanoCPUs = 1000000000`. -/
theorem C6_witness :
    (Docker.buildHostConfig dHappy).resources.nanoCPUs = 1000000000 :=
  (C6_cpu_nano_conversion dHappy).2.1 rfl

/-- C7: the `Memory` value of the configuration (already in bytes) is passed
unchanged as the memory limit of the built host configuration; in particular
a memory of `1073741824` bytes appears as exactly `1073741824`. -/
theorem C7_memory_passthrough (d : Docker) :
    (Docker.buildHostConfig d).resources.memory = d.config.memory ∧
    (d.config.memory = 1073741824 →
      (Docker.buildHostConfig d).resources.memory = 1073741824) :=
  ⟨rfl, fun h => h⟩

/-- C7 witness: the stub driver's configuration asks for `1073741824` bytes
and the built host configuration carries exactly that limit. -/
theorem C7_witness :
    (Docker.buildHostConfig dHappy).resources.memory = 1073741824 :=
  (C7_memory_passthrough dHappy).2 rfl

/-- C8 counterexample: the task description `tWeb` supplies the explicit
host-to-container binding `("80/tcp", "8080")`, but the built host
configuration contains no port bindings at all — its `PortBindings` field is
the empty zero value for every driver (here evaluated on the stub driver
whose config exposes `"80/tcp"`), so the explicit binding is not included. -/
theorem C8_counterexample :
    tWeb.portBindings = [("80/tcp", "8080")] ∧
    cfgNginx.exposedPorts = ["80/tcp"] ∧
    (Docker.buildHostConfig dHappy).portBindings = ([] : List (String × String)) ∧
    ("80/tcp", "8080") ∉ (Docker.buildHostConfig dHappy).portBindings :=
  ⟨rfl, rfl, rfl, by simp [Docker.buildHostConfig]⟩

/-- C8 amended: the built host configuration requests automatic host-port
assignment for every exposed container port (`PublishAllPorts` is always
set), but no explicit host-to-container bindings are included: the `Config`
the driver consumes carries no bindings and `buildHostConfig` leaves the
`PortBindings` field at its empty zero value. -/
theorem C8_publish_all_ports_no_explicit_bindings (d : Docker) :
    (Docker.buildHostConfig d).publishAllPorts = true ∧
    (Docker.buildHostConfig d).portBindings = ([] : List (String × String)) :=
  ⟨rfl, rfl⟩

/-- C9: `ContainerStart` records the given container id in the driver's
`ContainerID` field exactly when the runtime's start call succeeds; when the
start call fails, the driver is left unchanged and the wrapped error is
returned. -/
theorem C9_containerStart_records_id (d : Docker) (ctx : Context)
    (cid : String) :
    (d.client.containerStart ctx cid = Except.ok () →
      Docker.containerStart d ctx cid = ({ d with containerID := cid }, none)) ∧
    (∀ e, d.client.containerStart ctx cid = Except.error e →
      Docker.containerStart d ctx cid =
        (d, some (GoError.wrapped "start container failed" e))) :=
  ⟨containerStart_of_ok d ctx cid, fun e he =>
    containerStart_of_error d ctx cid e he⟩

/-- C9 witness: against the all-success stub runtime, starting `"abc123"`
records it as the driver's owned container id and returns no error. -/
theorem C9_witness :
    Docker.containerStart dHappy Context.background "abc123" =
      ({ dHappy with containerID := "abc123" }, none) :=
  (C9_containerStart_records_id dHappy Context.background "abc123").1 rfl

/-- C10: no driver operation modifies the driver's `Config` (nor its runtime
client or sinks): `ImagePull`, `ContainerCreate` and `ContainerLogs` leave
the driver state untouched, and `ContainerStart` — and hence `Run`, which
writes only through it — either leaves the state untouched or changes
exactly the `ContainerID` field. -/
theorem C10_frame (d : Docker) (ctx : Context) (cid : String) :
    (Docker.imagePull d ctx).1 = d ∧
    (Docker.containerCreate d ctx).1 = d ∧
    (Docker.containerLogs d ctx cid).1 = d ∧
    (Docker.containerStart d ctx cid).1.config = d.config ∧
    (Docker.containerStart d ctx cid).1.client = d.client ∧
    ((Docker.containerStart d ctx cid).1 = d ∨
      (Docker.containerStart d ctx cid).1 = { d with containerID := cid }) ∧
    (Docker.run d).1.config = d.config ∧
    (Docker.run d).1.client = d.client ∧
    ((Docker.run d).1 = d ∨
      ∃ i, (Docker.run d).1 = { d with containerID := i }) := by
  have hstart : (Docker.containerStart d ctx cid).1 = d ∨
      (Docker.containerStart d ctx cid).1 = { d with containerID := cid } := by
    unfold Docker.containerStart
    cases d.client.containerStart ctx cid with
    | error e => exact Or.inl rfl
    | ok u => exact Or.inr rfl
  have hrun : (Docker.run d).1 = d ∨
      ∃ i, (Docker.run d).1 = { d with containerID := i } := by
    cases hpe : (d.imagePull Context.background).2 with
    | some e => rw [run_of_pullErr d e hpe]; exact Or.inl rfl
    | none =>
      cases hce : (d.containerCreate Context.background).2 with
      | error e => rw [run_of_createErr d e hpe hce]; exact Or.inl rfl
      | ok cid2 =>
        cases hse : (d.containerStart Context.background cid2).2 with
        | some e => rw [run_of_startErr d cid2 e hpe hce hse]; exact Or.inl rfl
        | none =>
          rw [run_of_success d cid2 hpe hce hse]
          exact Or.inr ⟨cid2, rfl⟩
  refine ⟨rfl, rfl, rfl, ?_, ?_, hstart, ?_, ?_, hrun⟩
  · rcases hstart with h | h <;> rw [h]
  · rcases hstart with h | h <;> rw [h]
  · rcases hrun with h | ⟨i, h⟩ <;> rw [h]
  · rcases hrun with h | ⟨i, h⟩ <;> rw [h]

end Cube
